import Mathlib

/-!
Shallow embedding of the paystream smart contract (src/contract/src/lib.rs).

Conventions of the embedding:
* `AccountId` (a NEAR account name in the source) is modelled as `Nat`
  with decidable equality; only equality of account ids is ever used.
* `u64` and `u128` machine integers are modelled as `Nat` with explicit
  wrapping (`% 2 ^ 64`) or saturation (`min _ U128MAX`) exactly where the
  source uses `wrapping_add`, `saturating_mul`, `saturating_add` or
  `saturating_sub`; `checked_sub` is modelled by an explicit comparison.
  Rust `u64::saturating_sub` on values below `2 ^ 64` is truncated `Nat`
  subtraction, which is how it appears here.
* `near_sdk::collections::LookupMap` is modelled as an association list
  with unique keys (`mapInsert` replaces in place, `mapRemove` deletes).
* `env::block_timestamp()` and `env::signer_account_id()` are passed as
  explicit `now` / `signer` arguments, as every contract entry point
  reads them exactly once at its start.
* A Rust panic (`require!`, `expect`, `unwrap`) aborts the whole
  invocation on the host and discards every mutation, so fallible entry
  points are modelled as `Except` values: an `error` result means the
  invocation aborted with the named failure and the pre-state survives
  unchanged.  In the source all error paths happen to occur before the
  first write as well.
-/

/-- AccountId of the NEAR host, modelled as a plain decidable identifier. -/
abbrev AccountId := Nat

/-- Size of the u64 type, used for the wrapping subscription counter. -/
def U64SIZE : Nat := 2 ^ 64

/-- Largest u128 value, the saturation bound of balance arithmetic. -/
def U128MAX : Nat := 2 ^ 128 - 1

/-- Rust u128 saturating_add. -/
def satAdd128 (a b : Nat) : Nat := min (a + b) U128MAX

/-- Rust u128 saturating_mul. -/
def satMul128 (a b : Nat) : Nat := min (a * b) U128MAX

/-- Lookup in an association list, mirroring LookupMap::get. -/
def mapLookup {K V : Type} [DecidableEq K] : List (K × V) → K → Option V
  | [], _ => none
  | (k, v) :: rest, key => if k = key then some v else mapLookup rest key

/-- Insert or replace in an association list, mirroring LookupMap::insert. -/
def mapInsert {K V : Type} [DecidableEq K] : List (K × V) → K → V → List (K × V)
  | [], key, val => [(key, val)]
  | (k, v) :: rest, key, val =>
      if k = key then (key, val) :: rest else (k, v) :: mapInsert rest key val

/-- Remove a key from an association list, mirroring LookupMap::remove. -/
def mapRemove {K V : Type} [DecidableEq K] : List (K × V) → K → List (K × V)
  | [], _ => []
  | (k, v) :: rest, key => if k = key then rest else (k, v) :: mapRemove rest key

/-- Subscription record of the contract: source, destination, flow rate in
yoctos per second, and the last-settled timestamp (field `timestamp`). -/
structure Subscription where
  source : AccountId
  destination : AccountId
  flow : Nat
  timestamp : Nat
deriving Repr, DecidableEq

/-- Embedding of Subscription::settle (lib.rs lines 55-61): elapsed time by
u64 saturating_sub, amount by u128 saturating_mul, timestamp advanced to now.
The Rust method mutates self and returns the amount; here it returns both. -/
def Subscription.settle (sub : Subscription) (now : Nat) : Nat × Subscription :=
  let time_spent := now - sub.timestamp
  let amount := satMul128 time_spent sub.flow
  (amount, { sub with timestamp := now })

/-- Subscriptions aggregate (lib.rs lines 67-76): the wrapping id counter,
the id-keyed ledger map, and the two per-account index maps. -/
structure Subscriptions where
  subscription_index : Nat
  subscriptions : List (Nat × Subscription)
  outputs : List (AccountId × List Nat)
  inputs : List (AccountId × List Nat)
deriving Repr, DecidableEq

/-- SubscriptionError (lib.rs lines 80-84). -/
inductive SubscriptionError where
  | NotPresent (idx : Nat)
  | InvalidFlow (flow : Nat)
  | InternalError
deriving Repr, DecidableEq

/-- Embedding of Subscriptions::create (lib.rs lines 102-128): wrapping
increment of the counter, store the record at the new id, append the id to
the inputs list of the destination and the outputs list of the source. -/
def Subscriptions.create (s : Subscriptions) (source destination : AccountId)
    (flow now : Nat) : Subscription × Subscriptions :=
  let idx := (s.subscription_index + 1) % U64SIZE
  let sub : Subscription := ⟨source, destination, flow, now⟩
  let subsMap := mapInsert s.subscriptions idx sub
  let ins := (mapLookup s.inputs destination).getD []
  let inputsMap := mapInsert s.inputs destination (ins ++ [idx])
  let outs := (mapLookup s.outputs source).getD []
  let outputsMap := mapInsert s.outputs source (outs ++ [idx])
  (sub, { subscription_index := idx, subscriptions := subsMap,
          outputs := outputsMap, inputs := inputsMap })

/-- Embedding of Subscriptions::try_get (lib.rs lines 141-145). -/
def Subscriptions.try_get (s : Subscriptions) (idx : Nat) :
    Except SubscriptionError Subscription :=
  match mapLookup s.subscriptions idx with
  | some sub => .ok sub
  | none => .error (.NotPresent idx)

/-- Embedding of Subscriptions::try_remove (lib.rs lines 148-165), kept
bit-for-bit faithful to the source including its quirks: after deleting the
record it consults `inputs` under the SOURCE key and `outputs` under the
DESTINATION key, RETAINS exactly the entries equal to the removed id
(`retain(|&x| x == subscription_index)`), and writes the second list back
under the SOURCE key. -/
def Subscriptions.try_remove (s : Subscriptions) (idx : Nat) :
    Except SubscriptionError (Subscription × Subscriptions) :=
  match mapLookup s.subscriptions idx with
  | none => .error (.NotPresent idx)
  | some sub =>
    let subsMap := mapRemove s.subscriptions idx
    let inputsMap :=
      match mapLookup s.inputs sub.source with
      | some ins => mapInsert s.inputs sub.source (ins.filter (fun i => i == idx))
      | none => s.inputs
    let outputsMap :=
      match mapLookup s.outputs sub.destination with
      | some outs => mapInsert s.outputs sub.source (outs.filter (fun i => i == idx))
      | none => s.outputs
    .ok (sub, { s with subscriptions := subsMap,
                       inputs := inputsMap, outputs := outputsMap })

/-- Embedding of Subscriptions::subscriptions_for_account (lib.rs lines
168-173): the inputs list of the account followed by its outputs list. -/
def Subscriptions.subscriptions_for_account (s : Subscriptions)
    (account : AccountId) : List Nat :=
  ((mapLookup s.inputs account).getD []) ++ ((mapLookup s.outputs account).getD [])

/-- Embedding of Subscriptions::try_update (lib.rs lines 176-191), faithful
to the source: the updated record is inserted at key `s.subscription_index`
(the current COUNTER value), not at the `idx` argument, and the Rust
`insert(..).ok_or(InternalError)` makes a missing previous value at the
counter key an InternalError.  The only caller unwraps the result, so an
error aborts the invocation and no mutation survives. -/
def Subscriptions.try_update (s : Subscriptions) (idx new_flow : Nat) :
    Except SubscriptionError (Subscription × Subscriptions) :=
  match s.try_get idx with
  | .error e => .error e
  | .ok sub =>
    if sub.flow = new_flow then
      .error (.InvalidFlow new_flow)
    else
      let updated := { sub with flow := new_flow }
      match mapLookup s.subscriptions s.subscription_index with
      | none => .error .InternalError
      | some _ =>
          .ok (updated,
               { s with subscriptions :=
                   mapInsert s.subscriptions s.subscription_index updated })

/-- Failure modes of the Paystream entry points; each constructor stands for
one specific require!/expect/unwrap/Err message of the source. -/
inductive ContractError where
  | RateNotPositive
  | SignerNotSource
  | SourceIsDestination
  | MissingBalance
  | InsufficientReserve
  | SignerNotParticipant
  | SubscriptionMissing (idx : Nat)
  | SourceMissing
  | InsufficientBalance
  | UpdateInvalidFlow (flow : Nat)
  | InternalError
deriving Repr, DecidableEq

/-- Paystream contract state (lib.rs lines 202-219) restricted to the fields
the core logic reads: stream balances, owner, treasurer, the subscription
ledger, and the reserve window in seconds.  The wrapped-token plumbing
(token, metadata, wrap_contract) is never consulted by the core paths. -/
structure Paystream where
  balances : List (AccountId × Nat)
  owner : AccountId
  treasurer : AccountId
  subscriptions : Subscriptions
  reserve : Nat
deriving Repr, DecidableEq

/-- Embedding of Paystream::new (lib.rs lines 391-426): empty maps and the
default reserve window of four hours. -/
def Paystream.new (owner : AccountId) : Paystream :=
  { balances := []
    owner := owner
    treasurer := owner
    subscriptions :=
      { subscription_index := 0, subscriptions := [], outputs := [], inputs := [] }
    reserve := 4 * 60 * 60 }

/-- Embedding of Paystream::try_transfer (lib.rs lines 474-495): the source
balance must exist, the debit uses checked_sub (hard failure when the balance
is below the amount), the credit uses u128 saturating_add and creates the
destination entry when absent.  Every error path precedes the first write. -/
def Paystream.try_transfer (p : Paystream) (source destination : AccountId)
    (amount : Nat) : Except ContractError Paystream :=
  match mapLookup p.balances source with
  | none => .error .SourceMissing
  | some balance_of_source =>
    if balance_of_source < amount then .error .InsufficientBalance
    else
      let balances1 := mapInsert p.balances source (balance_of_source - amount)
      let balances2 :=
        match mapLookup balances1 destination with
        | some current => mapInsert balances1 destination (satAdd128 current amount)
        | none => mapInsert balances1 destination amount
      .ok { p with balances := balances2 }

/-- Embedding of Paystream::sufficient_reserve (lib.rs lines 299-309): the
minimum is the rate times the reserve window by u128 saturating_mul; the
`expect("that source has balance")` on a missing account is the
MissingBalance abort, the failed require! is InsufficientReserve. -/
def Paystream.sufficient_reserve (p : Paystream) (rate : Nat)
    (account : AccountId) : Except ContractError Unit :=
  let minimum_balance := satMul128 rate p.reserve
  match mapLookup p.balances account with
  | none => .error .MissingBalance
  | some current_balance =>
      if current_balance > minimum_balance then .ok () else .error .InsufficientReserve

/-- Embedding of Paystream::create_subscription (lib.rs lines 319-331):
guards in source order (rate positive, signer is source, source differs from
destination, reserve check), then Subscriptions::create. -/
def Paystream.create_subscription (p : Paystream) (signer source destination : AccountId)
    (rate now : Nat) : Except ContractError (Subscription × Paystream) :=
  if rate = 0 then .error .RateNotPositive
  else if source ≠ signer then .error .SignerNotSource
  else if source = destination then .error .SourceIsDestination
  else
    match p.sufficient_reserve rate source with
    | .error e => .error e
    | .ok _ =>
        let created := p.subscriptions.create source destination rate now
        .ok (created.1, { p with subscriptions := created.2 })

/-- Embedding of Paystream::remove_subscription (lib.rs lines 336-358):
fetch (unwrap), participant check, try_remove (expect), settle the removed
record at now, transfer the settled amount from source to destination,
return the settled record.  try_remove cannot fail after the successful
fetch; that dead branch is mapped to InternalError. -/
def Paystream.remove_subscription (p : Paystream) (signer : AccountId)
    (idx now : Nat) : Except ContractError (Subscription × Paystream) :=
  match p.subscriptions.try_get idx with
  | .error _ => .error (.SubscriptionMissing idx)
  | .ok sub0 =>
    if signer = sub0.source ∨ signer = sub0.destination then
      match p.subscriptions.try_remove idx with
      | .error _ => .error .InternalError
      | .ok (sub, s) =>
        let settled := sub.settle now
        match Paystream.try_transfer { p with subscriptions := s }
            settled.2.source settled.2.destination settled.1 with
        | .error e => .error e
        | .ok p2 => .ok (settled.2, p2)
    else .error .SignerNotParticipant

/-- Embedding of Paystream::update_subscription (lib.rs lines 372-384):
fetch (unwrap), settle a LOCAL COPY of the record at now, transfer the
settled amount, then Subscriptions::try_update (unwrap).  The settled
timestamp is never written back; try_update re-reads the stored record. -/
def Paystream.update_subscription (p : Paystream) (idx new_flow now : Nat) :
    Except ContractError (Subscription × Paystream) :=
  match p.subscriptions.try_get idx with
  | .error _ => .error (.SubscriptionMissing idx)
  | .ok sub =>
    let settled := sub.settle now
    match Paystream.try_transfer p settled.2.source settled.2.destination settled.1 with
    | .error e => .error e
    | .ok p1 =>
      match p1.subscriptions.try_update idx new_flow with
      | .error (.InvalidFlow fl) => .error (.UpdateInvalidFlow fl)
      | .error (.NotPresent i) => .error (.SubscriptionMissing i)
      | .error .InternalError => .error .InternalError
      | .ok (updated, s) => .ok (updated, { p1 with subscriptions := s })

/-- Accrual formula shared by settlement and the balance view (the closure
`yoctos_per_second` of lib.rs lines 504-507): elapsed time by u64
saturating_sub times flow by u128 saturating_mul. -/
def accrual (now : Nat) (sub : Subscription) : Nat :=
  satMul128 (now - sub.timestamp) sub.flow

/-- Embedding of Paystream::current_balance (lib.rs lines 498-534): start
from the persisted balance (zero when absent), saturating-add the accrual of
every existing subscription listed in the inputs of the account, then
saturating-subtract the accrual of every existing subscription listed in its
outputs; ids whose record is gone are skipped.  The source method takes
&self, hence a pure function here. -/
def Paystream.current_balance (p : Paystream) (account : AccountId) (now : Nat) : Nat :=
  ((mapLookup p.subscriptions.outputs account).getD []).foldl
    (fun bal idx =>
      match mapLookup p.subscriptions.subscriptions idx with
      | some sub => bal - accrual now sub
      | none => bal)
    (((mapLookup p.subscriptions.inputs account).getD []).foldl
      (fun bal idx =>
        match mapLookup p.subscriptions.subscriptions idx with
        | some sub => satAdd128 bal (accrual now sub)
        | none => bal)
      ((mapLookup p.balances account).getD 0))

/-- Embedding of the FungibleTokenCore::ft_balance_of override (lib.rs lines
559-561), which delegates to current_balance. -/
def Paystream.ft_balance_of (p : Paystream) (account : AccountId) (now : Nat) : Nat :=
  p.current_balance account now

/-- Embedding of the successful branch of Paystream::wrap_callback (lib.rs
lines 452-469), the deposit/mint hook: credit the account by u128
saturating_add, creating the entry when absent. -/
def Paystream.wrap_callback_success (p : Paystream) (account : AccountId)
    (amount : Nat) : Paystream :=
  match mapLookup p.balances account with
  | some current =>
      { p with balances := mapInsert p.balances account (satAdd128 current amount) }
  | none => { p with balances := mapInsert p.balances account amount }

/-- Sum of the projected balances of the listed accounts: per account this
is the persisted balance plus unsettled inbound accrual minus unsettled
outbound accrual, exactly what current_balance computes. -/
def Paystream.totalValue (p : Paystream) (accounts : List AccountId) (now : Nat) : Nat :=
  (accounts.map (fun a => p.current_balance a now)).sum

deriving instance DecidableEq for Except

/-- Accrual amounts, in index-list order, of the listed subscription ids
whose record still exists; absent ids contribute nothing.  Written from the
words of the spec for the balance view: look up each id, skip a stale index
entry rather than fail. -/
def specAccruals (subs : List (Nat × Subscription)) (ids : List Nat) (now : Nat) :
    List Nat :=
  ids.filterMap (fun i => (mapLookup subs i).map (accrual now))

/-- Balance view as the spec describes it: start from the persisted balance
(zero if absent), saturating-add the accrual of every surviving inbound
subscription, then saturating-subtract the accrual of every surviving
outbound subscription, in list order.  This is the refinement target that
current_balance is compared against. -/
def specBalanceView (p : Paystream) (account : AccountId) (now : Nat) : Nat :=
  (specAccruals p.subscriptions.subscriptions
      ((mapLookup p.subscriptions.outputs account).getD []) now).foldl
    (fun acc x => acc - x)
    ((specAccruals p.subscriptions.subscriptions
        ((mapLookup p.subscriptions.inputs account).getD []) now).foldl
      satAdd128
      ((mapLookup p.balances account).getD 0))

/-- Value of the balance view after the inbound pass only: persisted balance
plus the saturating sum of surviving inbound accruals. -/
def Paystream.inflow_balance (p : Paystream) (account : AccountId) (now : Nat) : Nat :=
  ((mapLookup p.subscriptions.inputs account).getD []).foldl
    (fun bal idx =>
      match mapLookup p.subscriptions.subscriptions idx with
      | some sub => satAdd128 bal (accrual now sub)
      | none => bal)
    ((mapLookup p.balances account).getD 0)

/-- Total outbound accrual of the account over surviving subscriptions. -/
def Paystream.outflow_total (p : Paystream) (account : AccountId) (now : Nat) : Nat :=
  (specAccruals p.subscriptions.subscriptions
      ((mapLookup p.subscriptions.outputs account).getD []) now).sum

/-- Number of active subscriptions that reference the account as source or
destination, written from the words of the spec for listForAccount. -/
def specActiveRefCount (s : Subscriptions) (account : AccountId) : Nat :=
  (s.subscriptions.filter
      (fun kv => kv.2.source == account || kv.2.destination == account)).length

lemma foldl_skip_add (subs : List (Nat × Subscription)) (now : Nat) :
    ∀ (ids : List Nat) (b : Nat),
      ids.foldl
        (fun bal idx =>
          match mapLookup subs idx with
          | some sub => satAdd128 bal (accrual now sub)
          | none => bal) b
      = (ids.filterMap (fun i => (mapLookup subs i).map (accrual now))).foldl
          satAdd128 b := by
  intro ids
  induction ids with
  | nil => intro b; rfl
  | cons i rest ih =>
      intro b
      cases h : mapLookup subs i <;>
        simp [List.foldl_cons, List.filterMap_cons, h, ih]

lemma foldl_skip_sub (subs : List (Nat × Subscription)) (now : Nat) :
    ∀ (ids : List Nat) (b : Nat),
      ids.foldl
        (fun bal idx =>
          match mapLookup subs idx with
          | some sub => bal - accrual now sub
          | none => bal) b
      = (ids.filterMap (fun i => (mapLookup subs i).map (accrual now))).foldl
          (fun acc x => acc - x) b := by
  intro ids
  induction ids with
  | nil => intro b; rfl
  | cons i rest ih =>
      intro b
      cases h : mapLookup subs i <;>
        simp [List.foldl_cons, List.filterMap_cons, h, ih]

lemma foldl_sub_eq_sub_sum :
    ∀ (l : List Nat) (x : Nat), l.foldl (fun acc y => acc - y) x = x - l.sum := by
  intro l
  induction l with
  | nil => intro x; simp
  | cons a rest ih =>
      intro x
      simp [List.foldl_cons, List.sum_cons, ih, Nat.sub_sub]

lemma mapLookup_insert_self {K V : Type} [DecidableEq K]
    (m : List (K × V)) (k : K) (v : V) :
    mapLookup (mapInsert m k v) k = some v := by
  induction m with
  | nil => simp [mapInsert, mapLookup]
  | cons kv rest ih =>
      by_cases h : kv.1 = k
      · simp [mapInsert, mapLookup, h]
      · simp [mapInsert, mapLookup, h, ih]

/-- Freshly initialised contract owned by account 0. -/
def pInit : Paystream := Paystream.new 0

/-- Contract after one deposit of 2000000 to account 1 through the
wrap_callback hook. -/
def pFunded1 : Paystream := pInit.wrap_callback_success 1 2000000

/-- Concrete run: account 1 (funded) creates the stream 1 → 2 with flow 100
at time 10 (id 1), then removes it at time 10. -/
def rTrace : Except ContractError (Subscription × Paystream) :=
  match pFunded1.create_subscription 1 1 2 100 10 with
  | .error e => .error e
  | .ok x => x.2.remove_subscription 1 1 10

/-- Concrete run for the conservation claim: deposits of 2000000 to account
1 and 1000000 to account 3, stream 1 → 2 with flow 100 at time 10 (id 1),
stream 3 → 1 with flow 50 at time 10 (id 2). -/
def c1Pre : Except ContractError Paystream := do
  let p0 := (Paystream.new 0).wrap_callback_success 1 2000000
  let p1 := p0.wrap_callback_success 3 1000000
  let x2 ← p1.create_subscription 1 1 2 100 10
  let x3 ← x2.2.create_subscription 3 3 1 50 10
  pure x3.2

/-- Concrete run: account 1 (funded) creates the stream 1 → 2 with flow 100
at time 10 (id 1). -/
def c3Pre : Except ContractError Paystream :=
  (pFunded1.create_subscription 1 1 2 100 10).map (fun x => x.2)

/-- C1.  Conservation fails on the code: in the reachable state c1Pre (total
deposited value 3000000, streams 1 → 2 at flow 100 and 3 → 1 at flow 50,
both from time 10), the sum over every account of persisted balance plus
unsettled projected accrual equals 3000000 at time 20, yet after the
non-deposit operation remove_subscription of id 1 at time 20 the same sum
at time 20 is 2999500: the removal wiped the inputs index entry of the
OTHER stream (it consults the wrong account keys and retains entries equal
to the removed id), so 500 of accrued inbound value vanishes.  The claim
says every core operation other than the deposit hook leaves this sum
unchanged. -/
theorem c1_conservation_broken_by_remove :
    c1Pre.map (fun p => Paystream.totalValue p [1, 2, 3] 20) = .ok 3000000 ∧
    (c1Pre.bind (fun p => p.remove_subscription 1 1 20)).map
        (fun x => Paystream.totalValue x.2 [1, 2, 3] 20) = .ok 2999500 ∧
    (3000000 : Nat) ≠ 2999500 := by
  decide

/-- C2.  After a successful remove_subscription of id 1 (run rTrace), the
fetch of id 1 does fail NotFound, but contrary to the claim the id is NOT
removed from the index lists: it is still present in the inputs list of the
destination (account 2) and in the outputs list of the source (account 1),
because try_remove consults the wrong account keys and retains exactly the
entries equal to the removed id. -/
theorem c2_removed_id_retained_in_indexes :
    rTrace.map (fun x =>
        (x.2.subscriptions.try_get 1,
         mapLookup x.2.subscriptions.inputs 2,
         mapLookup x.2.subscriptions.outputs 1))
      = .ok (.error (.NotPresent 1), some [1], some [1]) := by
  decide

/-- C3.  update_subscription of id 1 from flow 100 to flow 200 at time 50
(after creation at time 10, run c3Pre) does transfer the full old-rate
accrual of 4000 from account 1 to account 2, but both the returned record
and the stored record keep the STALE last-settled timestamp 10 instead of
the update time 50 demanded by the claim: the settled copy is never written
back, so the already-transferred interval will accrue again. -/
theorem c3_update_keeps_stale_timestamp :
    (c3Pre.bind (fun p => p.update_subscription 1 200 50)).map
        (fun x => (x.1, x.2.balances, mapLookup x.2.subscriptions.subscriptions 1))
      = .ok (⟨1, 2, 200, 10⟩, [(1, 1996000), (2, 4000)],
             some ⟨1, 2, 200, 10⟩) ∧
    (⟨1, 2, 200, 10⟩ : Subscription).timestamp ≠ 50 := by
  decide

/-- C9.  In the reachable state after rTrace (create stream 1 → 2 as id 1,
then remove it), listForAccount of account 2 still returns the sequence
containing id 1, of length 1, while the number of active subscriptions
referencing account 2 is 0, contradicting the claimed length equality; the
stale entry survives because try_remove consults the wrong account keys and
retains entries equal to the removed id. -/
theorem c9_list_length_mismatch :
    rTrace.map (fun x =>
        (Subscriptions.subscriptions_for_account x.2.subscriptions 2,
         specActiveRefCount x.2.subscriptions 2))
      = .ok ([1], 0) ∧
    ([1] : List Nat).length ≠ 0 := by
  decide

/-- C8 counterexample.  For a source account that has never been funded the
claim demands rejection with InsufficientReserve (reading the balance as an
implicit zero); the code instead aborts in sufficient_reserve with the
distinct missing-balance failure (`expect("that source has balance")`). -/
theorem c8_unfunded_source_error_name :
    (Paystream.new 0).create_subscription 1 1 2 5 0 = .error .MissingBalance ∧
    ContractError.MissingBalance ≠ ContractError.InsufficientReserve := by
  decide

/-- C4.  The balance query (the ft_balance_of override, which delegates to
current_balance) computes exactly the spec description specBalanceView: the
persisted balance (zero when the account is absent), plus the saturating
accrual of each id in the inputs list whose subscription still exists,
minus the saturating accrual of each id in the outputs list whose
subscription still exists, absent ids being skipped rather than failing the
query.  The source method takes &self, so it is embedded as a pure
function: no stored state is mutated, and the value at a fixed time is
determined by the state alone, which is what this equality expresses. -/
theorem c4_balance_view_refines_spec (p : Paystream) (account : AccountId) (now : Nat) :
    p.ft_balance_of account now = specBalanceView p account now := by
  unfold Paystream.ft_balance_of Paystream.current_balance specBalanceView specAccruals
  rw [foldl_skip_add, foldl_skip_sub]

/-- C6.  Settlement returns the amount max(0, now - last_settled) * flow,
with the elapsed time computed by saturating subtraction (stated here over
the integers through Int.toNat) and the product capped at the largest u128
value by saturating multiplication, together with an updated record whose
last-settled timestamp is now and whose source, destination and flow are
unchanged.  The embedding of Subscription::settle is a pure function of the
record and the time and touches no balances or indexes. -/
theorem c6_settle_formula (sub : Subscription) (now : Nat) :
    (sub.settle now).1
        = min ((((now : Int) - (sub.timestamp : Int)).toNat) * sub.flow) U128MAX ∧
    (sub.settle now).2.source = sub.source ∧
    (sub.settle now).2.destination = sub.destination ∧
    (sub.settle now).2.flow = sub.flow ∧
    (sub.settle now).2.timestamp = now := by
  refine ⟨?_, rfl, rfl, rfl, rfl⟩
  have htn : (((now : Int) - (sub.timestamp : Int)).toNat) = now - sub.timestamp := by
    omega
  rw [htn]
  rfl

/-- C10.  The balance query can never go below zero: its result is a
natural number that is nonnegative as an integer, and whenever the
outbound accrual total reaches the persisted-plus-inbound value the
per-item saturating subtractions collapse to an exact clamp at zero. -/
theorem c10_balance_clamps_at_zero (p : Paystream) (account : AccountId) (now : Nat)
    (h : p.inflow_balance account now ≤ p.outflow_total account now) :
    0 ≤ (p.current_balance account now : Int) ∧ p.current_balance account now = 0 := by
  constructor
  · exact Int.natCast_nonneg _
  · have hcb : p.current_balance account now
        = p.inflow_balance account now - p.outflow_total account now := by
      unfold Paystream.current_balance Paystream.inflow_balance
        Paystream.outflow_total specAccruals
      rw [foldl_skip_sub, foldl_sub_eq_sub_sum]
    rw [hcb]
    omega

/-- Handcrafted state for the clamp witness: account 1 holds 10 and streams
out at flow 5 from time 0, so at time 10 the outbound accrual 50 exceeds
the persisted 10. -/
def c10Ex : Paystream :=
  { balances := [(1, 10)]
    owner := 0
    treasurer := 0
    subscriptions :=
      { subscription_index := 1
        subscriptions := [(1, ⟨1, 2, 5, 0⟩)]
        outputs := [(1, [1])]
        inputs := [] }
    reserve := 0 }

/-- Witness for C10 at the concrete state c10Ex. -/
theorem c10_witness :
    c10Ex.inflow_balance 1 10 ≤ c10Ex.outflow_total 1 10 ∧
    (0 ≤ (c10Ex.current_balance 1 10 : Int) ∧ c10Ex.current_balance 1 10 = 0) :=
  ⟨by decide, c10_balance_clamps_at_zero c10Ex 1 10 (by decide)⟩

/-- C5.  Transfer of settled value: with the source holding balance b (a
u128 value), a transfer of more than b aborts with InsufficientBalance (the
checked subtraction fails closed; no write precedes the failure, so the
balances survive unchanged), while a transfer of at most b debits the
source by exactly the amount and credits the destination by u128 saturating
addition on its previous balance, an absent destination counting as zero. -/
theorem c5_transfer_checked_debit_saturating_credit (p : Paystream)
    (src dst : AccountId) (b amt1 amt2 : Nat)
    (hb : mapLookup p.balances src = some b) (hcap : b ≤ U128MAX)
    (h1 : b < amt1) (h2 : amt2 ≤ b) :
    p.try_transfer src dst amt1 = .error .InsufficientBalance ∧
    p.try_transfer src dst amt2 =
      .ok { p with balances := mapInsert (mapInsert p.balances src (b - amt2)) dst (satAdd128 ((mapLookup (mapInsert p.balances src (b - amt2)) dst).getD 0) amt2) } := by
  constructor
  · simp [Paystream.try_transfer, hb, h1]
  · have hmin : satAdd128 0 amt2 = amt2 := by
      unfold satAdd128
      rw [Nat.zero_add]
      exact min_eq_left (h2.trans hcap)
    simp only [Paystream.try_transfer, hb]
    rw [if_neg (Nat.not_lt.mpr h2)]
    cases hd : mapLookup (mapInsert p.balances src (b - amt2)) dst with
    | some c => simp [hd]
    | none => simp [hd, hmin]

/-- Witness for C5 at the funded state pFunded1 (account 1 holds 2000000):
a transfer of 3000000 aborts with InsufficientBalance, a transfer of 500 to
the fresh account 2 debits and credits as stated. -/
theorem c5_witness :
    pFunded1.try_transfer 1 2 3000000 = .error .InsufficientBalance ∧
    pFunded1.try_transfer 1 2 500 =
      .ok { pFunded1 with balances := mapInsert (mapInsert pFunded1.balances 1 (2000000 - 500)) 2 (satAdd128 ((mapLookup (mapInsert pFunded1.balances 1 (2000000 - 500)) 2).getD 0) 500) } :=
  c5_transfer_checked_debit_saturating_credit pFunded1 1 2 2000000 3000000 500
    (by decide) (by decide) (by decide) (by decide)

/-- C7.  Creation: a zero rate is rejected (RateNotPositive) and a call with
source equal to destination is rejected (SourceIsDestination); every
rejection is an abort that leaves the ledger untouched.  When the guards
and the reserve check pass, the returned record carries the given source,
destination and flow with last-settled equal to now, it is stored under the
freshly allocated id (the wrapping increment of the counter), that id is
appended to the inputs list of the destination and to the outputs list of
the source, and the persisted balances are unchanged. -/
theorem c7_create_subscription_spec (p : Paystream) (src dst : AccountId)
    (rate now b : Nat)
    (hr : rate ≠ 0) (hd : src ≠ dst)
    (hb : mapLookup p.balances src = some b)
    (hgt : satMul128 rate p.reserve < b) :
    (p.create_subscription src src dst 0 now = .error .RateNotPositive) ∧
    (p.create_subscription src src src rate now = .error .SourceIsDestination) ∧
    ((p.create_subscription src src dst rate now).map
        (fun x =>
          (x.1, x.2.balances, x.2.subscriptions.subscription_index,
           mapLookup x.2.subscriptions.subscriptions
             ((p.subscriptions.subscription_index + 1) % U64SIZE),
           mapLookup x.2.subscriptions.inputs dst,
           mapLookup x.2.subscriptions.outputs src))
      = .ok (⟨src, dst, rate, now⟩, p.balances,
             (p.subscriptions.subscription_index + 1) % U64SIZE,
             some ⟨src, dst, rate, now⟩,
             some ((mapLookup p.subscriptions.inputs dst).getD []
                     ++ [(p.subscriptions.subscription_index + 1) % U64SIZE]),
             some ((mapLookup p.subscriptions.outputs src).getD []
                     ++ [(p.subscriptions.subscription_index + 1) % U64SIZE]))) := by
  refine ⟨rfl, ?_, ?_⟩
  · simp [Paystream.create_subscription, hr]
  · simp [Paystream.create_subscription, Paystream.sufficient_reserve,
      Subscriptions.create, hr, hd, hb, hgt, mapLookup_insert_self, Except.map]

/-- Witness for C7 at the funded state pFunded1: account 1 holds 2000000,
the reserve window is 14400 seconds, rate 100 needs a reserve above
1440000. -/
theorem c7_witness :
    (pFunded1.create_subscription 1 1 2 0 10 = .error .RateNotPositive) ∧
    (pFunded1.create_subscription 1 1 1 100 10 = .error .SourceIsDestination) ∧
    ((pFunded1.create_subscription 1 1 2 100 10).map
        (fun x =>
          (x.1, x.2.balances, x.2.subscriptions.subscription_index,
           mapLookup x.2.subscriptions.subscriptions
             ((pFunded1.subscriptions.subscription_index + 1) % U64SIZE),
           mapLookup x.2.subscriptions.inputs 2,
           mapLookup x.2.subscriptions.outputs 1))
      = .ok (⟨1, 2, 100, 10⟩, pFunded1.balances,
             (pFunded1.subscriptions.subscription_index + 1) % U64SIZE,
             some ⟨1, 2, 100, 10⟩,
             some ((mapLookup pFunded1.subscriptions.inputs 2).getD []
                     ++ [(pFunded1.subscriptions.subscription_index + 1) % U64SIZE]),
             some ((mapLookup pFunded1.subscriptions.outputs 1).getD []
                     ++ [(pFunded1.subscriptions.subscription_index + 1) % U64SIZE]))) :=
  c7_create_subscription_spec pFunded1 1 2 100 10 2000000
    (by decide) (by decide) (by decide) (by decide)

/-- Success test on a contract call result. -/
def isOkB {α : Type} (e : Except ContractError α) : Bool :=
  match e with
  | .ok _ => true
  | .error _ => false

lemma update_subscription_reserve_obs (bal : List (AccountId × Nat))
    (ow tr : AccountId) (ss : Subscriptions) (r1 r2 i f t : Nat) :
    (Paystream.update_subscription ⟨bal, ow, tr, ss, r1⟩ i f t).map
        (fun x => (x.1, x.2.balances, x.2.subscriptions))
      = (Paystream.update_subscription ⟨bal, ow, tr, ss, r2⟩ i f t).map
        (fun x => (x.1, x.2.balances, x.2.subscriptions)) := by
  unfold Paystream.update_subscription
  cases hg : Subscriptions.try_get ss i with
  | error e => simp only [hg]
  | ok sub =>
    simp only [hg]
    unfold Paystream.try_transfer
    cases hl : mapLookup bal (sub.settle t).2.source with
    | none => simp only [hl]
    | some b =>
      simp only [hl]
      by_cases hlt : b < (sub.settle t).1
      · simp only [if_pos hlt]
      · simp only [if_neg hlt]
        cases hd2 : mapLookup (mapInsert bal (sub.settle t).2.source (b - (sub.settle t).1))
            (sub.settle t).2.destination with
        | none =>
          simp only [hd2]
          cases hu : Subscriptions.try_update ss i f with
          | error e => cases e <;> simp only [hu]
          | ok us => simp only [hu]; rfl
        | some c =>
          simp only [hd2]
          cases hu : Subscriptions.try_update ss i f with
          | error e => cases e <;> simp only [hu]
          | ok us => simp only [hu]; rfl

lemma remove_subscription_reserve_obs (bal : List (AccountId × Nat))
    (ow tr : AccountId) (ss : Subscriptions) (r1 r2 : Nat) (sg : AccountId)
    (i t : Nat) :
    (Paystream.remove_subscription ⟨bal, ow, tr, ss, r1⟩ sg i t).map
        (fun x => (x.1, x.2.balances, x.2.subscriptions))
      = (Paystream.remove_subscription ⟨bal, ow, tr, ss, r2⟩ sg i t).map
        (fun x => (x.1, x.2.balances, x.2.subscriptions)) := by
  unfold Paystream.remove_subscription
  cases hg : Subscriptions.try_get ss i with
  | error e => simp only [hg]
  | ok sub0 =>
    simp only [hg]
    by_cases hs : sg = sub0.source ∨ sg = sub0.destination
    · simp only [if_pos hs]
      cases hrm : Subscriptions.try_remove ss i with
      | error e => simp only [hrm]
      | ok rs =>
        simp only [hrm]
        unfold Paystream.try_transfer
        cases hl : mapLookup bal (rs.1.settle t).2.source with
        | none => simp only [hl]
        | some b =>
          simp only [hl]
          by_cases hlt : b < (rs.1.settle t).1
          · simp only [if_pos hlt]
          · simp only [if_neg hlt]
            cases hd2 : mapLookup
                (mapInsert bal (rs.1.settle t).2.source (b - (rs.1.settle t).1))
                (rs.1.settle t).2.destination with
            | none => simp only [hd2]; rfl
            | some c => simp only [hd2]; rfl
    · simp only [if_neg hs]

/-- C8 (amended).  The reserve guard at creation: a funded source whose
balance does not strictly exceed rate times the reserve window is rejected
with InsufficientReserve; a source that has never been funded is also
rejected, but with the distinct missing-balance failure rather than
InsufficientReserve; in general (state w) creation succeeds exactly when
the recorded balance of the source, read as zero when absent, strictly
exceeds the saturating product of rate and reserve window.  Every rejection
is an abort with no state change.  The guard is evaluated only at creation:
the observable outcome (returned record, balances, ledger) of
update_subscription and remove_subscription is independent of the stored
reserve window. -/
theorem c8_reserve_guard_amended (p q w : Paystream) (src dst sg : AccountId)
    (rate now b r1 r2 i f t : Nat)
    (hr : rate ≠ 0) (hd : src ≠ dst)
    (hb : mapLookup p.balances src = some b)
    (hle : b ≤ satMul128 rate p.reserve)
    (hq : mapLookup q.balances src = none) :
    (p.create_subscription src src dst rate now = .error .InsufficientReserve) ∧
    (q.create_subscription src src dst rate now = .error .MissingBalance) ∧
    (isOkB (w.create_subscription src src dst rate now) = true ↔
       satMul128 rate w.reserve < (mapLookup w.balances src).getD 0) ∧
    ((Paystream.update_subscription { p with reserve := r1 } i f t).map
        (fun x => (x.1, x.2.balances, x.2.subscriptions))
      = (Paystream.update_subscription { p with reserve := r2 } i f t).map
        (fun x => (x.1, x.2.balances, x.2.subscriptions))) ∧
    ((Paystream.remove_subscription { p with reserve := r1 } sg i t).map
        (fun x => (x.1, x.2.balances, x.2.subscriptions))
      = (Paystream.remove_subscription { p with reserve := r2 } sg i t).map
        (fun x => (x.1, x.2.balances, x.2.subscriptions))) := by
  obtain ⟨bal, ow, tr, ss, rv⟩ := p
  refine ⟨?_, ?_, ?_, ?_, ?_⟩
  · simp only [Paystream.balances] at hb
    simp only [Paystream.reserve] at hle
    simp [Paystream.create_subscription, Paystream.sufficient_reserve, hr, hd, hb,
      Nat.not_lt.mpr hle]
  · simp [Paystream.create_subscription, Paystream.sufficient_reserve, hr, hd, hq]
  · cases hw : mapLookup w.balances src with
    | none =>
        simp [Paystream.create_subscription, Paystream.sufficient_reserve,
          hr, hd, hw, isOkB]
    | some bw =>
        by_cases hlt : satMul128 rate w.reserve < bw <;>
          simp [Paystream.create_subscription, Paystream.sufficient_reserve,
            Subscriptions.create, hr, hd, hw, hlt, isOkB]
  · exact update_subscription_reserve_obs bal ow tr ss r1 r2 i f t
  · exact remove_subscription_reserve_obs bal ow tr ss r1 r2 sg i t

/-- Underfunded state for the C8 witness: account 1 holds only 10 against a
reserve window of 14400 seconds. -/
def c8P : Paystream :=
  { balances := [(1, 10)]
    owner := 0
    treasurer := 0
    subscriptions :=
      { subscription_index := 0, subscriptions := [], outputs := [], inputs := [] }
    reserve := 14400 }

/-- Witness for C8 at the concrete states c8P (funded but below the
reserve), Paystream.new 0 (never funded) and pFunded1 (amply funded). -/
theorem c8_witness :
    (c8P.create_subscription 1 1 2 100 0 = .error .InsufficientReserve) ∧
    ((Paystream.new 0).create_subscription 1 1 2 100 0 = .error .MissingBalance) ∧
    (isOkB (pFunded1.create_subscription 1 1 2 100 0) = true ↔
       satMul128 100 pFunded1.reserve < (mapLookup pFunded1.balances 1).getD 0) ∧
    ((Paystream.update_subscription { c8P with reserve := 5 } 1 3 4).map
        (fun x => (x.1, x.2.balances, x.2.subscriptions))
      = (Paystream.update_subscription { c8P with reserve := 7 } 1 3 4).map
        (fun x => (x.1, x.2.balances, x.2.subscriptions))) ∧
    ((Paystream.remove_subscription { c8P with reserve := 5 } 1 1 4).map
        (fun x => (x.1, x.2.balances, x.2.subscriptions))
      = (Paystream.remove_subscription { c8P with reserve := 7 } 1 1 4).map
        (fun x => (x.1, x.2.balances, x.2.subscriptions))) :=
  c8_reserve_guard_amended c8P (Paystream.new 0) pFunded1 1 2 1 100 0 10 5 7 1 3 4
    (by decide) (by decide) (by decide) (by decide) (by decide)
